import Mathlib

/-!
The shared header `dump1090.h` of dump1090 (wiffle fork).

A shallow embedding of the constants, enumerations and message record declared in
`dump1090.h`, together with the properties of them that the decode and track-fusion
pipeline relies on.

C enumerations are embedded as inductive types whose constructors keep the C
enumerator names, in declaration order.  The integer value of an enumerator is given by
a `val` function written out from the header: an enumerator without an initialiser takes
the value of its predecessor plus one, the first one takes 0.

The header only includes `track.h` and `crc.h`.  The merge policy of the track fusion
engine and the CRC engine are therefore embedded from the specification; every such
definition says so in its doc comment.
-/

namespace Dump1090

/-! ## `#define` constants -/

/-- Macro `#define MODES_MSG_ENCODER_ERRS 3`: maximum number of encoding errors. -/
def MODES_MSG_ENCODER_ERRS : Nat := 3

/-- Macro `#define MODES_LONG_MSG_BYTES 14`. -/
def MODES_LONG_MSG_BYTES : Nat := 14

/-- Macro `#define MODES_SHORT_MSG_BYTES 7`. -/
def MODES_SHORT_MSG_BYTES : Nat := 7

/-- Macro `#define MODES_LONG_MSG_BITS (MODES_LONG_MSG_BYTES * 8)`. -/
def MODES_LONG_MSG_BITS : Nat := MODES_LONG_MSG_BYTES * 8

/-- Macro `#define MODES_SHORT_MSG_BITS (MODES_SHORT_MSG_BYTES * 8)`. -/
def MODES_SHORT_MSG_BITS : Nat := MODES_SHORT_MSG_BYTES * 8

/-- Macro `#define MODES_NON_ICAO_ADDRESS (1<<24)`: set on addresses to indicate they are not
ICAO addresses. -/
def MODES_NON_ICAO_ADDRESS : Nat := 1 <<< 24

/-! ## Enumerations -/

/-- Enumeration `datasource_t`: where did a bit of data arrive from, in order of increasing
priority. -/
inductive datasource_t
  | SOURCE_INVALID
  | SOURCE_MODE_AC
  | SOURCE_MLAT
  | SOURCE_MODE_S
  | SOURCE_MODE_S_CHECKED
  | SOURCE_TISB
  | SOURCE_ADSR
  | SOURCE_ADSB
  deriving DecidableEq, Repr

/-- Integer value of each `datasource_t` enumerator. -/
def datasource_t.val : datasource_t → Nat
  | .SOURCE_INVALID => 0
  | .SOURCE_MODE_AC => 1
  | .SOURCE_MLAT => 2
  | .SOURCE_MODE_S => 3
  | .SOURCE_MODE_S_CHECKED => 4
  | .SOURCE_TISB => 5
  | .SOURCE_ADSR => 6
  | .SOURCE_ADSB => 7

/-- Every `datasource_t` enumerator, in declaration order. -/
def datasource_t.all : List datasource_t :=
  [.SOURCE_INVALID, .SOURCE_MODE_AC, .SOURCE_MLAT, .SOURCE_MODE_S, .SOURCE_MODE_S_CHECKED,
   .SOURCE_TISB, .SOURCE_ADSR, .SOURCE_ADSB]

/-- Enumeration `addrtype_t`: what sort of address is this and who sent it (earlier values are higher
priority). -/
inductive addrtype_t
  | ADDR_ADSB_ICAO
  | ADDR_ADSB_ICAO_NT
  | ADDR_ADSR_ICAO
  | ADDR_TISB_ICAO
  | ADDR_ADSB_OTHER
  | ADDR_ADSR_OTHER
  | ADDR_TISB_TRACKFILE
  | ADDR_TISB_OTHER
  | ADDR_MODE_A
  | ADDR_UNKNOWN
  deriving DecidableEq, Repr

/-- Integer value of each `addrtype_t` enumerator. -/
def addrtype_t.val : addrtype_t → Nat
  | .ADDR_ADSB_ICAO => 0
  | .ADDR_ADSB_ICAO_NT => 1
  | .ADDR_ADSR_ICAO => 2
  | .ADDR_TISB_ICAO => 3
  | .ADDR_ADSB_OTHER => 4
  | .ADDR_ADSR_OTHER => 5
  | .ADDR_TISB_TRACKFILE => 6
  | .ADDR_TISB_OTHER => 7
  | .ADDR_MODE_A => 8
  | .ADDR_UNKNOWN => 9

/-- Every `addrtype_t` enumerator, in declaration order. -/
def addrtype_t.all : List addrtype_t :=
  [.ADDR_ADSB_ICAO, .ADDR_ADSB_ICAO_NT, .ADDR_ADSR_ICAO, .ADDR_TISB_ICAO, .ADDR_ADSB_OTHER,
   .ADDR_ADSR_OTHER, .ADDR_TISB_TRACKFILE, .ADDR_TISB_OTHER, .ADDR_MODE_A, .ADDR_UNKNOWN]

/-- Priority comparison on address types as the header documents it: `a` has higher
priority than `b` when its enumerator comes earlier, i.e. its value is smaller. -/
def addrtype_t.higherPriority (a b : addrtype_t) : Prop := a.val < b.val

instance (a b : addrtype_t) : Decidable (a.higherPriority b) :=
  inferInstanceAs (Decidable (a.val < b.val))

/-- The address types whose header comment says the address is an ICAO address. -/
def addrtype_t.icao : List addrtype_t :=
  [.ADDR_ADSB_ICAO, .ADDR_ADSB_ICAO_NT, .ADDR_ADSR_ICAO, .ADDR_TISB_ICAO]

/-- The address types that are not ICAO addresses. -/
def addrtype_t.nonIcao : List addrtype_t :=
  [.ADDR_ADSB_OTHER, .ADDR_ADSR_OTHER, .ADDR_TISB_TRACKFILE, .ADDR_TISB_OTHER, .ADDR_MODE_A,
   .ADDR_UNKNOWN]

/-- The address types commented "other address format". -/
def addrtype_t.otherFormat : List addrtype_t :=
  [.ADDR_ADSB_OTHER, .ADDR_ADSR_OTHER, .ADDR_TISB_OTHER]

/-- The address types built on a Mode A code: `ADDR_TISB_TRACKFILE` (Mode A code + track
file number) and `ADDR_MODE_A`. -/
def addrtype_t.modeA : List addrtype_t :=
  [.ADDR_TISB_TRACKFILE, .ADDR_MODE_A]

/-- Enumeration `commb_format_t`: inferred format of a Comm-B message. -/
inductive commb_format_t
  | COMMB_UNKNOWN
  | COMMB_AMBIGUOUS
  | COMMB_NOT_DECODED
  | COMMB_EMPTY_RESPONSE
  | COMMB_DATALINK_CAPS
  | COMMB_GICB_CAPS
  | COMMB_AIRCRAFT_IDENT
  | COMMB_ACAS_RA
  | COMMB_VERTICAL_INTENT
  | COMMB_TRACK_TURN
  | COMMB_HEADING_SPEED
  | COMMB_MRAR
  | COMMB_AIRBORNE_POSITION
  deriving DecidableEq, Repr

/-- Integer value of each `commb_format_t` enumerator. -/
def commb_format_t.val : commb_format_t → Nat
  | .COMMB_UNKNOWN => 0
  | .COMMB_AMBIGUOUS => 1
  | .COMMB_NOT_DECODED => 2
  | .COMMB_EMPTY_RESPONSE => 3
  | .COMMB_DATALINK_CAPS => 4
  | .COMMB_GICB_CAPS => 5
  | .COMMB_AIRCRAFT_IDENT => 6
  | .COMMB_ACAS_RA => 7
  | .COMMB_VERTICAL_INTENT => 8
  | .COMMB_TRACK_TURN => 9
  | .COMMB_HEADING_SPEED => 10
  | .COMMB_MRAR => 11
  | .COMMB_AIRBORNE_POSITION => 12

/-- The tags of `commb_format_t` that name a register layout. -/
def commb_format_t.registerTags : List commb_format_t :=
  [.COMMB_DATALINK_CAPS, .COMMB_GICB_CAPS, .COMMB_AIRCRAFT_IDENT, .COMMB_ACAS_RA,
   .COMMB_VERTICAL_INTENT, .COMMB_TRACK_TURN, .COMMB_HEADING_SPEED, .COMMB_MRAR,
   .COMMB_AIRBORNE_POSITION]

/-- The registers the specification lists as recognised by the Comm-B classifier. -/
inductive CommBRegister
  | aircraftIdentification
  | datalinkCapability
  | gicbCapability
  | acasResolutionAdvisory
  | verticalIntent
  | trackTurn
  | headingSpeed
  | meteorologicalRoutineAirReport
  deriving DecidableEq, Repr

/-- The outcomes of the specification's Comm-B decision rule: no layout matches, more than
one matches, the buffer is all zero, or exactly one register layout matches. -/
inductive CommBOutcome
  | notDecoded
  | ambiguous
  | emptyResponse
  | decoded (r : CommBRegister)
  deriving DecidableEq, Repr

/-- The `commb_format_t` tag the header provides for each recognised register. -/
def CommBRegister.tag : CommBRegister → commb_format_t
  | .aircraftIdentification => .COMMB_AIRCRAFT_IDENT
  | .datalinkCapability => .COMMB_DATALINK_CAPS
  | .gicbCapability => .COMMB_GICB_CAPS
  | .acasResolutionAdvisory => .COMMB_ACAS_RA
  | .verticalIntent => .COMMB_VERTICAL_INTENT
  | .trackTurn => .COMMB_TRACK_TURN
  | .headingSpeed => .COMMB_HEADING_SPEED
  | .meteorologicalRoutineAirReport => .COMMB_MRAR

/-- The `commb_format_t` tag stored in `modesMessage.commb_format` for each outcome. -/
def CommBOutcome.tag : CommBOutcome → commb_format_t
  | .notDecoded => .COMMB_NOT_DECODED
  | .ambiguous => .COMMB_AMBIGUOUS
  | .emptyResponse => .COMMB_EMPTY_RESPONSE
  | .decoded r => r.tag

/-- Enumeration `emergency_t`: matches the encoding of the ES type 28/1 emergency/priority status
subfield. -/
inductive emergency_t
  | EMERGENCY_NONE
  | EMERGENCY_GENERAL
  | EMERGENCY_LIFEGUARD
  | EMERGENCY_MINFUEL
  | EMERGENCY_NORDO
  | EMERGENCY_UNLAWFUL
  | EMERGENCY_DOWNED
  | EMERGENCY_RESERVED
  deriving DecidableEq, Repr

/-- Integer value of each `emergency_t` enumerator, as initialised in the header. -/
def emergency_t.val : emergency_t → Nat
  | .EMERGENCY_NONE => 0
  | .EMERGENCY_GENERAL => 1
  | .EMERGENCY_LIFEGUARD => 2
  | .EMERGENCY_MINFUEL => 3
  | .EMERGENCY_NORDO => 4
  | .EMERGENCY_UNLAWFUL => 5
  | .EMERGENCY_DOWNED => 6
  | .EMERGENCY_RESERVED => 7

/-- Every `emergency_t` enumerator, in declaration order. -/
def emergency_t.all : List emergency_t :=
  [.EMERGENCY_NONE, .EMERGENCY_GENERAL, .EMERGENCY_LIFEGUARD, .EMERGENCY_MINFUEL,
   .EMERGENCY_NORDO, .EMERGENCY_UNLAWFUL, .EMERGENCY_DOWNED, .EMERGENCY_RESERVED]

/-- The member of `emergency_t` whose value is the given 3-bit subfield value; `none` when
no member has that value. -/
def emergency_t.ofSubfield (n : Nat) : Option emergency_t :=
  emergency_t.all.find? (fun e => e.val == n)

/-- Number of whole bytes needed to hold a message of `bits` bits. -/
def bytesForBits (bits : Nat) : Nat := (bits + 7) / 8

/-- Flag an address as a non-ICAO address: `addr | MODES_NON_ICAO_ADDRESS`. -/
def flagNonIcao (a : Nat) : Nat := a ||| MODES_NON_ICAO_ADDRESS

/-- Width in bits of the `uint32_t addr` field of `struct modesMessage`. -/
def modesMessage_addr_bits : Nat := 32

/-! ## `struct modesMessage`: the generic fields -/

/-- Declared length of `unsigned char msg[MODES_LONG_MSG_BYTES]`. -/
def modesMessage_msg_len : Nat := MODES_LONG_MSG_BYTES

/-- Declared length of `unsigned char verbatim[MODES_LONG_MSG_BYTES]`. -/
def modesMessage_verbatim_len : Nat := MODES_LONG_MSG_BYTES

/-! ## Track fusion (the merge policy of the specification)

`track.h` and `track.c` are not part of the sources at hand; the definitions of this
section follow the specification's description of the Track Fusion Engine.  `F` is the
type of optional fields of a decoded message, `V` the type of their values. -/

/-- Modelled from the spec: one field of an Aircraft Track (the track record of `track.h`
is missing).  It holds the last-known value (absent until first set), the `DataSource`
that contributed it and its last-update timestamp. -/
structure TrackField (V : Type) where
  /-- Last-known value. -/
  value : Option V
  /-- Source of the message that last set the field. -/
  source : datasource_t
  /-- Timestamp of the message that last set the field. -/
  updated : Nat
  deriving DecidableEq, Repr

/-- Modelled from the spec: the configuration the fusion engine consumes (missing from the
sources).  `window f s` is the staleness window of field `f` for a value contributed by
source `s`.  `tiesOverwrite` selects what an equal-priority message does: the
specification says both "overwrite if greater-or-equal priority" and "ties keep the
existing value". -/
structure FusionConfig (F : Type) where
  /-- Staleness window of a field, per contributing source. -/
  window : F → datasource_t → Nat
  /-- Whether a message of equal priority overwrites. -/
  tiesOverwrite : Bool

/-- Modelled from the spec: a freshly created track field (track creation is missing from
the sources): no value, source `SOURCE_INVALID`. -/
def TrackField.empty {V : Type} : TrackField V :=
  { value := none, source := .SOURCE_INVALID, updated := 0 }

/-- Modelled from the spec: the per-field priority arbitration (`track.c` is missing).
A message of source `src` received at `now` may overwrite the stored field when its
priority is higher than the stored source, or equal to it when ties overwrite, or when the
stored value's age exceeds the field's staleness window. -/
def acceptsUpdate {F V : Type} (cfg : FusionConfig F) (f : F) (stored : TrackField V)
    (src : datasource_t) (now : Nat) : Bool :=
  decide (stored.source.val < src.val)
    || (cfg.tiesOverwrite && decide (stored.source.val = src.val))
    || decide (cfg.window f stored.source < now - stored.updated)

/-- Modelled from the spec: folding one optional field of a message into the stored field
(`track.c` is missing).  A field absent from the message leaves the stored field alone; a
present one overwrites value, source and timestamp when `acceptsUpdate` allows it. -/
def fuseField {F V : Type} (cfg : FusionConfig F) (f : F) (stored : TrackField V)
    (src : datasource_t) (now : Nat) (v : Option V) : TrackField V :=
  match v with
  | none => stored
  | some x =>
    if acceptsUpdate cfg f stored src now then { value := some x, source := src, updated := now }
    else stored

/-- Modelled from the spec: the part of a DecodedMessage the fusion engine reads (the
full record is `struct modesMessage`; its consumer `track.c` is missing): the announced
address, the `source` tag, the reception timestamp, and the optional fields, `none` when
the presence flag is clear. -/
structure DecodedMessage (F V : Type) where
  /-- Address announced. -/
  addr : Nat
  /-- Overall message source. -/
  source : datasource_t
  /-- Reception timestamp. -/
  timestamp : Nat
  /-- Optional fields, by field. -/
  field : F → Option V

/-- Modelled from the spec: an Aircraft Track, one `TrackField` per optional field. -/
abbrev Track (F V : Type) := F → TrackField V

/-- Modelled from the spec: the per-address track store. -/
abbrev Tracks (F V : Type) := Nat → Option (Track F V)

/-- Modelled from the spec: processing one message (`track.c` is missing): locate or
create the track for the message's address and fold every optional field into it; tracks
of other addresses are untouched. -/
def trackUpdateFromMessage {F V : Type} (cfg : FusionConfig F) (tracks : Tracks F V)
    (mm : DecodedMessage F V) : Tracks F V :=
  fun a =>
    if a = mm.addr then
      let t : Track F V := (tracks mm.addr).getD (fun _ => TrackField.empty)
      some (fun f => fuseField cfg f (t f) mm.source mm.timestamp (mm.field f))
    else tracks a

/-! ## CRC engine (the checksum and bounded correction of the specification)

`crc.h` and `crc.c` are not part of the sources at hand; the definitions of this section
follow the specification's description of the CRC Engine.  A message is its list of bits
in transmission order, bit 0 first.  The residual of a DF11 reply carries the Interrogator
Identifier, so a DF11 reply is valid with a non-zero residual, and correction of a DF11
reply compares only the residual bits above the identifier. -/

/-- Modelled from the spec: the fixed generator of the 24-bit surveillance CRC (`crc.c` is
missing).  The specification does not print the value; this is the Mode S generator, its
24 low-order coefficients (the leading `x^24` is implicit). -/
def MODES_GENERATOR_POLY : Nat := 0xFFF409

/-- Modelled from the spec: one clock of the linear feedback shift register that performs
the polynomial division (`crc.c` is missing).  The 24-bit register shifts left taking in
the message bit; when the bit shifted out is set the generator is subtracted (XORed). -/
def crcStep (s : Nat) (b : Bool) : Nat :=
  (((s <<< 1) ^^^ b.toNat) % 2 ^ 24) ^^^ (if s.testBit 23 then MODES_GENERATOR_POLY else 0)

/-- Modelled from the spec: the shift register run over a bit list from state `s`. -/
def crcFrom (s : Nat) (m : List Bool) : Nat := m.foldl crcStep s

/-- Modelled from the spec: the downlink format of a frame, the number written in its
first five bits (the Field Extractor is missing; it fills `modesMessage.msgtype`). -/
def msgtype (m : List Bool) : Nat :=
  (m.take 5).foldl (fun acc b => 2 * acc + b.toNat) 0

/-- Multiplication by `x` modulo the generator: one clock of the shift register with a
zero input bit. -/
def mulX (s : Nat) : Nat := crcStep s false

/-- The residual of `x^k`: the syndrome of a single flipped bit `k` places before the end
of a frame. -/
def xpow : Nat → Nat
  | 0 => 1
  | k + 1 => mulX (xpow k)

/-- Multiplication by `x^c` modulo the generator. -/
def mulXpow : Nat → Nat → Nat
  | 0, s => s
  | c + 1, s => mulXpow c (mulX s)

/-- XOR of a list of residuals. -/
def xorList : List Nat → Nat
  | [] => 0
  | a :: l => a ^^^ xorList l

/-- No two short selections of non-zero exponents below `n` have residuals that differ by
the residual of `x^0`: the property the lane certificates establish. -/
def NoUnitSum (n a b : Nat) : Prop :=
  ∀ A B : List Nat, A.Pairwise (· < ·) → B.Pairwise (· < ·) →
    (∀ x ∈ A, 1 ≤ x ∧ x < n) → (∀ x ∈ B, 1 ≤ x ∧ x < n) →
    A.length ≤ a → B.length ≤ b →
    xorList (A.map xpow) ^^^ xorList (B.map xpow) ≠ 1

/-- Pack a list of 24-bit values into 25-bit lanes of one number, first value lowest. -/
def pack (l : List Nat) : Nat :=
  @List.rec Nat (fun _ => Nat) 0 (fun a _ ih => Nat.add a (Nat.mul 33554432 ih)) l

/-- Macro `#define MODES_RTL_BUFFERS 15`: number of RTL buffers. -/
def MODES_RTL_BUFFERS : Nat := 15

/-- Macro `#define MODES_RTL_BUF_SIZE (16*16384)`: 256k. -/
def MODES_RTL_BUF_SIZE : Nat := 16 * 16384

/-- Macro `#define MODES_MAG_BUF_SAMPLES (MODES_RTL_BUF_SIZE / 2)`: each sample is 2
bytes. -/
def MODES_MAG_BUF_SAMPLES : Nat := MODES_RTL_BUF_SIZE / 2

/-- Macro `#define MODES_MAG_BUFFERS 12`: number of magnitude buffers (should be smaller
than RTL_BUFFERS for flowcontrol to work). -/
def MODES_MAG_BUFFERS : Nat := 12

/-- Enumeration `nav_modes_t`: the navigation modes, one flag each. -/
inductive nav_modes_t
  | NAV_MODE_AUTOPILOT
  | NAV_MODE_VNAV
  | NAV_MODE_ALT_HOLD
  | NAV_MODE_APPROACH
  | NAV_MODE_LNAV
  | NAV_MODE_TCAS
  deriving DecidableEq, Repr

/-- Integer value of each `nav_modes_t` enumerator, as initialised in the header. -/
def nav_modes_t.val : nav_modes_t → Nat
  | .NAV_MODE_AUTOPILOT => 1
  | .NAV_MODE_VNAV => 2
  | .NAV_MODE_ALT_HOLD => 4
  | .NAV_MODE_APPROACH => 8
  | .NAV_MODE_LNAV => 16
  | .NAV_MODE_TCAS => 32

/-- Every `nav_modes_t` enumerator, in declaration order. -/
def nav_modes_t.all : List nav_modes_t :=
  [.NAV_MODE_AUTOPILOT, .NAV_MODE_VNAV, .NAV_MODE_ALT_HOLD, .NAV_MODE_APPROACH,
   .NAV_MODE_LNAV, .NAV_MODE_TCAS]

/-- Position of each enumerator in the declaration, which is also the bit its flag
occupies. -/
def nav_modes_t.bit : nav_modes_t → Nat
  | .NAV_MODE_AUTOPILOT => 0
  | .NAV_MODE_VNAV => 1
  | .NAV_MODE_ALT_HOLD => 2
  | .NAV_MODE_APPROACH => 3
  | .NAV_MODE_LNAV => 4
  | .NAV_MODE_TCAS => 5

/-- The value held in `nav.modes` for a set of modes: the bitwise OR of their flags. -/
def nav_modes_t.encode : List nav_modes_t → Nat
  | [] => 0
  | m :: ms => m.val ||| nav_modes_t.encode ms

/-- Membership test on a `nav.modes` value: AND with the mode's flag. -/
def nav_modes_t.isSet (v : Nat) (m : nav_modes_t) : Bool := v &&& m.val != 0

/-- The modes whose flag is set in a `nav.modes` value. -/
def nav_modes_t.decode (v : Nat) : List nav_modes_t :=
  nav_modes_t.all.filter (fun m => nav_modes_t.isSet v m)

/-! ## The remaining enumerations with a not-set member -/

/-- Enumeration `airground_t`: air/ground state. -/
inductive airground_t
  | AG_INVALID
  | AG_GROUND
  | AG_AIRBORNE
  | AG_UNCERTAIN
  deriving DecidableEq, Repr

/-- Integer value of each `airground_t` enumerator. -/
def airground_t.val : airground_t → Nat
  | .AG_INVALID => 0
  | .AG_GROUND => 1
  | .AG_AIRBORNE => 2
  | .AG_UNCERTAIN => 3

/-- Every `airground_t` enumerator, in declaration order. -/
def airground_t.all : List airground_t :=
  [.AG_INVALID, .AG_GROUND, .AG_AIRBORNE, .AG_UNCERTAIN]

/-- Enumeration `sil_type_t`: how the SIL is expressed. -/
inductive sil_type_t
  | SIL_INVALID
  | SIL_UNKNOWN
  | SIL_PER_SAMPLE
  | SIL_PER_HOUR
  deriving DecidableEq, Repr

/-- Integer value of each `sil_type_t` enumerator. -/
def sil_type_t.val : sil_type_t → Nat
  | .SIL_INVALID => 0
  | .SIL_UNKNOWN => 1
  | .SIL_PER_SAMPLE => 2
  | .SIL_PER_HOUR => 3

/-- Every `sil_type_t` enumerator, in declaration order. -/
def sil_type_t.all : List sil_type_t :=
  [.SIL_INVALID, .SIL_UNKNOWN, .SIL_PER_SAMPLE, .SIL_PER_HOUR]

/-- Enumeration `heading_type_t`: how to read a heading; `HEADING_INVALID` is commented "Not
set". -/
inductive heading_type_t
  | HEADING_INVALID
  | HEADING_GROUND_TRACK
  | HEADING_TRUE
  | HEADING_MAGNETIC
  | HEADING_MAGNETIC_OR_TRUE
  | HEADING_TRACK_OR_HEADING
  deriving DecidableEq, Repr

/-- Integer value of each `heading_type_t` enumerator. -/
def heading_type_t.val : heading_type_t → Nat
  | .HEADING_INVALID => 0
  | .HEADING_GROUND_TRACK => 1
  | .HEADING_TRUE => 2
  | .HEADING_MAGNETIC => 3
  | .HEADING_MAGNETIC_OR_TRUE => 4
  | .HEADING_TRACK_OR_HEADING => 5

/-- Every `heading_type_t` enumerator, in declaration order. -/
def heading_type_t.all : List heading_type_t :=
  [.HEADING_INVALID, .HEADING_GROUND_TRACK, .HEADING_TRUE, .HEADING_MAGNETIC,
   .HEADING_MAGNETIC_OR_TRUE, .HEADING_TRACK_OR_HEADING]

/-- Enumeration `nav_altitude_source_t`: source of the selected altitude. -/
inductive nav_altitude_source_t
  | NAV_ALT_INVALID
  | NAV_ALT_UNKNOWN
  | NAV_ALT_AIRCRAFT
  | NAV_ALT_MCP
  | NAV_ALT_FMS
  deriving DecidableEq, Repr

/-- Integer value of each `nav_altitude_source_t` enumerator. -/
def nav_altitude_source_t.val : nav_altitude_source_t → Nat
  | .NAV_ALT_INVALID => 0
  | .NAV_ALT_UNKNOWN => 1
  | .NAV_ALT_AIRCRAFT => 2
  | .NAV_ALT_MCP => 3
  | .NAV_ALT_FMS => 4

/-- Every `nav_altitude_source_t` enumerator, in declaration order. -/
def nav_altitude_source_t.all : List nav_altitude_source_t :=
  [.NAV_ALT_INVALID, .NAV_ALT_UNKNOWN, .NAV_ALT_AIRCRAFT, .NAV_ALT_MCP, .NAV_ALT_FMS]

/-- Enumeration `mrar_source_t`: BDS4,4 MRAR FOM/Source values. -/
inductive mrar_source_t
  | MRAR_SOURCE_INVALID
  | MRAR_SOURCE_INS
  | MRAR_SOURCE_GNSS
  | MRAR_SOURCE_DMEDME
  | MRAR_SOURCE_VORDME
  | MRAR_SOURCE_RESERVED
  deriving DecidableEq, Repr

/-- Integer value of each `mrar_source_t` enumerator, as initialised in the header. -/
def mrar_source_t.val : mrar_source_t → Nat
  | .MRAR_SOURCE_INVALID => 0
  | .MRAR_SOURCE_INS => 1
  | .MRAR_SOURCE_GNSS => 2
  | .MRAR_SOURCE_DMEDME => 3
  | .MRAR_SOURCE_VORDME => 4
  | .MRAR_SOURCE_RESERVED => 5

/-- Every `mrar_source_t` enumerator, in declaration order. -/
def mrar_source_t.all : List mrar_source_t :=
  [.MRAR_SOURCE_INVALID, .MRAR_SOURCE_INS, .MRAR_SOURCE_GNSS, .MRAR_SOURCE_DMEDME,
   .MRAR_SOURCE_VORDME, .MRAR_SOURCE_RESERVED]

/-- Every `commb_format_t` enumerator, in declaration order. -/
def commb_format_t.all : List commb_format_t :=
  [.COMMB_UNKNOWN, .COMMB_AMBIGUOUS, .COMMB_NOT_DECODED, .COMMB_EMPTY_RESPONSE,
   .COMMB_DATALINK_CAPS, .COMMB_GICB_CAPS, .COMMB_AIRCRAFT_IDENT, .COMMB_ACAS_RA,
   .COMMB_VERTICAL_INTENT, .COMMB_TRACK_TURN, .COMMB_HEADING_SPEED, .COMMB_MRAR,
   .COMMB_AIRBORNE_POSITION]

/-- The enumerator, among `all`, whose integer value is `n`: how the integer held in an
enum-typed member is read back as an enumerator; `none` when no enumerator has value
`n`. -/
def enumOfVal {α : Type} (all : List α) (val : α → Nat) (n : Nat) : Option α :=
  all.find? (fun e => val e == n)

/-- The `datasource_t` enumerator with integer value `n`, if any. -/
def datasource_t.ofVal (n : Nat) : Option datasource_t :=
  enumOfVal datasource_t.all datasource_t.val n

/-- The `commb_format_t` enumerator with integer value `n`, if any. -/
def commb_format_t.ofVal (n : Nat) : Option commb_format_t :=
  enumOfVal commb_format_t.all commb_format_t.val n

/-- The `airground_t` enumerator with integer value `n`, if any. -/
def airground_t.ofVal (n : Nat) : Option airground_t :=
  enumOfVal airground_t.all airground_t.val n

/-- The `sil_type_t` enumerator with integer value `n`, if any. -/
def sil_type_t.ofVal (n : Nat) : Option sil_type_t :=
  enumOfVal sil_type_t.all sil_type_t.val n

/-- The `heading_type_t` enumerator with integer value `n`, if any. -/
def heading_type_t.ofVal (n : Nat) : Option heading_type_t :=
  enumOfVal heading_type_t.all heading_type_t.val n

/-- The `nav_altitude_source_t` enumerator with integer value `n`, if any. -/
def nav_altitude_source_t.ofVal (n : Nat) : Option nav_altitude_source_t :=
  enumOfVal nav_altitude_source_t.all nav_altitude_source_t.val n

/-- The `mrar_source_t` enumerator with integer value `n`, if any. -/
def mrar_source_t.ofVal (n : Nat) : Option mrar_source_t :=
  enumOfVal mrar_source_t.all mrar_source_t.val n

/-! ## The record `struct modesMessage`

Integer, bit-field and enumeration members hold their integer value; byte arrays are lists
of bytes.  The floating-point members (`signalLevel`, `heading`, `track_rate`, `roll`,
`gs`, `mach`, `decoded_lat`, `decoded_lon`, `nav.heading`, `nav.qnh`, and the MRAR
measurements) are left out: nothing below reads them. -/

/-- The member `accuracy` of `struct modesMessage`: various integrity/accuracy things. -/
structure modesMessage_accuracy where
  nic_a_valid : Nat  -- unsigned : 1
  nic_b_valid : Nat  -- unsigned : 1
  nic_c_valid : Nat  -- unsigned : 1
  nic_baro_valid : Nat  -- unsigned : 1
  nac_p_valid : Nat  -- unsigned : 1
  nac_v_valid : Nat  -- unsigned : 1
  gva_valid : Nat  -- unsigned : 1
  sda_valid : Nat  -- unsigned : 1
  nic_a : Nat  -- unsigned : 1
  nic_b : Nat  -- unsigned : 1
  nic_c : Nat  -- unsigned : 1
  nic_baro : Nat  -- unsigned : 1
  nac_p : Nat  -- unsigned
  nac_v : Nat  -- unsigned
  sil : Nat  -- unsigned
  sil_type : Nat  -- sil_type_t
  gva : Nat  -- unsigned
  sda : Nat  -- unsigned

/-- The zero-initialised `accuracy` member: every member is 0. -/
def modesMessage_accuracy.zero : modesMessage_accuracy where
  nic_a_valid := 0
  nic_b_valid := 0
  nic_c_valid := 0
  nic_baro_valid := 0
  nac_p_valid := 0
  nac_v_valid := 0
  gva_valid := 0
  sda_valid := 0
  nic_a := 0
  nic_b := 0
  nic_c := 0
  nic_baro := 0
  nac_p := 0
  nac_v := 0
  sil := 0
  sil_type := 0
  gva := 0
  sda := 0

/-- The member `opstatus` of `struct modesMessage`: Operational Status. -/
structure modesMessage_opstatus where
  valid : Nat  -- unsigned : 1
  version : Nat  -- unsigned
  om_acas_ra : Nat  -- unsigned : 1
  om_ident : Nat  -- unsigned : 1
  om_atc : Nat  -- unsigned : 1
  om_saf : Nat  -- unsigned : 1
  cc_acas : Nat  -- unsigned : 1
  cc_cdti : Nat  -- unsigned : 1
  cc_1090_in : Nat  -- unsigned : 1
  cc_arv : Nat  -- unsigned : 1
  cc_ts : Nat  -- unsigned : 1
  cc_tc : Nat  -- unsigned
  cc_uat_in : Nat  -- unsigned : 1
  cc_poa : Nat  -- unsigned : 1
  cc_b2_low : Nat  -- unsigned : 1
  cc_lw_valid : Nat  -- unsigned : 1
  tah : Nat  -- heading_type_t
  hrd : Nat  -- heading_type_t
  cc_lw : Nat  -- unsigned
  cc_antenna_offset : Nat  -- unsigned

/-- The zero-initialised `opstatus` member: every member is 0. -/
def modesMessage_opstatus.zero : modesMessage_opstatus where
  valid := 0
  version := 0
  om_acas_ra := 0
  om_ident := 0
  om_atc := 0
  om_saf := 0
  cc_acas := 0
  cc_cdti := 0
  cc_1090_in := 0
  cc_arv := 0
  cc_ts := 0
  cc_tc := 0
  cc_uat_in := 0
  cc_poa := 0
  cc_b2_low := 0
  cc_lw_valid := 0
  tah := 0
  hrd := 0
  cc_lw := 0
  cc_antenna_offset := 0

/-- The member `nav` of `struct modesMessage`: Target State and Status, and Comm-B BDS4,0
Vertical Intent. -/
structure modesMessage_nav where
  heading_valid : Nat  -- unsigned : 1
  fms_altitude_valid : Nat  -- unsigned : 1
  mcp_altitude_valid : Nat  -- unsigned : 1
  qnh_valid : Nat  -- unsigned : 1
  modes_valid : Nat  -- unsigned : 1
  heading_type : Nat  -- heading_type_t
  fms_altitude : Int  -- int
  mcp_altitude : Int  -- int
  altitude_source : Nat  -- nav_altitude_source_t
  modes : Nat  -- nav_modes_t

/-- The zero-initialised `nav` member: every member is 0. -/
def modesMessage_nav.zero : modesMessage_nav where
  heading_valid := 0
  fms_altitude_valid := 0
  mcp_altitude_valid := 0
  qnh_valid := 0
  modes_valid := 0
  heading_type := 0
  fms_altitude := 0
  mcp_altitude := 0
  altitude_source := 0
  modes := 0

/-- The record we use to store information about a decoded message, `struct modesMessage`. -/
structure modesMessage where
  msg : List Nat  -- unsigned char[MODES_LONG_MSG_BYTES]
  verbatim : List Nat  -- unsigned char[MODES_LONG_MSG_BYTES]
  msgbits : Int  -- int
  msgtype : Int  -- int
  crc : Nat  -- uint32_t
  correctedbits : Int  -- int
  addr : Nat  -- uint32_t
  addrtype : Nat  -- addrtype_t
  timestampMsg : Nat  -- uint64_t
  sysTimestampMsg : Nat  -- uint64_t
  remote : Int  -- int
  score : Int  -- int
  reliable : Int  -- int
  source : Nat  -- datasource_t
  IID : Nat  -- unsigned
  AA : Nat  -- unsigned
  AC : Nat  -- unsigned
  CA : Nat  -- unsigned
  CC : Nat  -- unsigned
  CF : Nat  -- unsigned
  DR : Nat  -- unsigned
  FS : Nat  -- unsigned
  ID : Nat  -- unsigned
  KE : Nat  -- unsigned
  ND : Nat  -- unsigned
  RI : Nat  -- unsigned
  SL : Nat  -- unsigned
  UM : Nat  -- unsigned
  VS : Nat  -- unsigned
  MB : List Nat  -- unsigned char[7]
  MD : List Nat  -- unsigned char[10]
  ME : List Nat  -- unsigned char[7]
  MV : List Nat  -- unsigned char[7]
  altitude_baro_valid : Nat  -- unsigned : 1
  altitude_geom_valid : Nat  -- unsigned : 1
  track_valid : Nat  -- unsigned : 1
  track_rate_valid : Nat  -- unsigned : 1
  heading_valid : Nat  -- unsigned : 1
  roll_valid : Nat  -- unsigned : 1
  gs_valid : Nat  -- unsigned : 1
  ias_valid : Nat  -- unsigned : 1
  tas_valid : Nat  -- unsigned : 1
  mach_valid : Nat  -- unsigned : 1
  baro_rate_valid : Nat  -- unsigned : 1
  geom_rate_valid : Nat  -- unsigned : 1
  squawk_valid : Nat  -- unsigned : 1
  callsign_valid : Nat  -- unsigned : 1
  cpr_valid : Nat  -- unsigned : 1
  cpr_odd : Nat  -- unsigned : 1
  cpr_decoded : Nat  -- unsigned : 1
  cpr_relative : Nat  -- unsigned : 1
  category_valid : Nat  -- unsigned : 1
  geom_delta_valid : Nat  -- unsigned : 1
  from_mlat : Nat  -- unsigned : 1
  from_tisb : Nat  -- unsigned : 1
  spi_valid : Nat  -- unsigned : 1
  spi : Nat  -- unsigned : 1
  alert_valid : Nat  -- unsigned : 1
  alert : Nat  -- unsigned : 1
  emergency_valid : Nat  -- unsigned : 1
  metype : Nat  -- unsigned
  mesub : Nat  -- unsigned
  commb_format : Nat  -- commb_format_t
  altitude_baro : Int  -- int
  altitude_baro_unit : Nat  -- altitude_unit_t
  altitude_geom : Int  -- int
  altitude_geom_unit : Nat  -- altitude_unit_t
  geom_delta : Int  -- int
  heading_type : Nat  -- heading_type_t
  ias : Nat  -- unsigned
  tas : Nat  -- unsigned
  baro_rate : Int  -- int
  geom_rate : Int  -- int
  squawk : Nat  -- unsigned
  callsign : List Nat  -- char[9]
  category : Nat  -- unsigned
  emergency : Nat  -- emergency_t
  cpr_type : Nat  -- cpr_type_t
  cpr_lat : Nat  -- unsigned
  cpr_lon : Nat  -- unsigned
  cpr_nucp : Nat  -- unsigned
  airground : Nat  -- airground_t
  decoded_nic : Nat  -- unsigned
  decoded_rc : Nat  -- unsigned
  accuracy : modesMessage_accuracy  -- struct
  opstatus : modesMessage_opstatus  -- struct
  nav : modesMessage_nav  -- struct
  mrar_source_valid : Nat  -- unsigned : 1
  wind_valid : Nat  -- unsigned : 1
  temperature_valid : Nat  -- unsigned : 1
  pressure_valid : Nat  -- unsigned : 1
  turbulence_valid : Nat  -- unsigned : 1
  humidity_valid : Nat  -- unsigned : 1
  mrar_source : Nat  -- mrar_source_t
  turbulence : Nat  -- hazard_t

/-- The zero-initialised `struct modesMessage`: every member is 0, every array element is 0. -/
def modesMessage.zero : modesMessage where
  msg := List.replicate MODES_LONG_MSG_BYTES 0
  verbatim := List.replicate MODES_LONG_MSG_BYTES 0
  msgbits := 0
  msgtype := 0
  crc := 0
  correctedbits := 0
  addr := 0
  addrtype := 0
  timestampMsg := 0
  sysTimestampMsg := 0
  remote := 0
  score := 0
  reliable := 0
  source := 0
  IID := 0
  AA := 0
  AC := 0
  CA := 0
  CC := 0
  CF := 0
  DR := 0
  FS := 0
  ID := 0
  KE := 0
  ND := 0
  RI := 0
  SL := 0
  UM := 0
  VS := 0
  MB := List.replicate 7 0
  MD := List.replicate 10 0
  ME := List.replicate 7 0
  MV := List.replicate 7 0
  altitude_baro_valid := 0
  altitude_geom_valid := 0
  track_valid := 0
  track_rate_valid := 0
  heading_valid := 0
  roll_valid := 0
  gs_valid := 0
  ias_valid := 0
  tas_valid := 0
  mach_valid := 0
  baro_rate_valid := 0
  geom_rate_valid := 0
  squawk_valid := 0
  callsign_valid := 0
  cpr_valid := 0
  cpr_odd := 0
  cpr_decoded := 0
  cpr_relative := 0
  category_valid := 0
  geom_delta_valid := 0
  from_mlat := 0
  from_tisb := 0
  spi_valid := 0
  spi := 0
  alert_valid := 0
  alert := 0
  emergency_valid := 0
  metype := 0
  mesub := 0
  commb_format := 0
  altitude_baro := 0
  altitude_baro_unit := 0
  altitude_geom := 0
  altitude_geom_unit := 0
  geom_delta := 0
  heading_type := 0
  ias := 0
  tas := 0
  baro_rate := 0
  geom_rate := 0
  squawk := 0
  callsign := List.replicate 9 0
  category := 0
  emergency := 0
  cpr_type := 0
  cpr_lat := 0
  cpr_lon := 0
  cpr_nucp := 0
  airground := 0
  decoded_nic := 0
  decoded_rc := 0
  accuracy := modesMessage_accuracy.zero
  opstatus := modesMessage_opstatus.zero
  nav := modesMessage_nav.zero
  mrar_source_valid := 0
  wind_valid := 0
  temperature_valid := 0
  pressure_valid := 0
  turbulence_valid := 0
  humidity_valid := 0
  mrar_source := 0
  turbulence := 0

/-- The presence flags of a message: the `*_valid` bit-fields of the record and of its
`accuracy`, `opstatus` and `nav` members, and `cpr_decoded`. -/
def modesMessage.presenceFlags (mm : modesMessage) : List Nat :=
  [mm.altitude_baro_valid, mm.altitude_geom_valid, mm.track_valid, mm.track_rate_valid,
   mm.heading_valid, mm.roll_valid, mm.gs_valid, mm.ias_valid, mm.tas_valid, mm.mach_valid,
   mm.baro_rate_valid, mm.geom_rate_valid, mm.squawk_valid, mm.callsign_valid, mm.cpr_valid,
   mm.cpr_decoded, mm.category_valid, mm.geom_delta_valid, mm.spi_valid, mm.alert_valid,
   mm.emergency_valid, mm.accuracy.nic_a_valid, mm.accuracy.nic_b_valid, mm.accuracy.nic_c_valid,
   mm.accuracy.nic_baro_valid, mm.accuracy.nac_p_valid, mm.accuracy.nac_v_valid,
   mm.accuracy.gva_valid, mm.accuracy.sda_valid, mm.opstatus.valid, mm.opstatus.cc_lw_valid,
   mm.nav.heading_valid, mm.nav.fms_altitude_valid, mm.nav.mcp_altitude_valid, mm.nav.qnh_valid,
   mm.nav.modes_valid, mm.mrar_source_valid, mm.wind_valid, mm.temperature_valid,
   mm.pressure_valid, mm.turbulence_valid, mm.humidity_valid]

/-! ## Theorems -/

/-- C1: the values of `datasource_t` form the strict chain
INVALID < MODE_AC < MLAT < MODE_S < MODE_S_CHECKED < TISB < ADSR < ADSB; the encoding is
injective, `SOURCE_INVALID` is the minimum with value 0, `SOURCE_ADSB` the maximum, and
of two distinct sources exactly one has the higher value. -/
theorem datasource_strict_total_order :
    (datasource_t.all.map datasource_t.val = [0, 1, 2, 3, 4, 5, 6, 7]
      ∧ List.Chain' (fun a b => datasource_t.val a < datasource_t.val b) datasource_t.all
      ∧ ∀ s : datasource_t, s ∈ datasource_t.all)
    ∧ (∀ a b : datasource_t, a.val = b.val ↔ a = b)
    ∧ (datasource_t.SOURCE_INVALID.val = 0
        ∧ ∀ s : datasource_t, datasource_t.SOURCE_INVALID.val ≤ s.val)
    ∧ (∀ s : datasource_t, s.val ≤ datasource_t.SOURCE_ADSB.val)
    ∧ (∀ a b : datasource_t, a ≠ b →
        (a.val < b.val ∧ ¬ b.val < a.val) ∨ (b.val < a.val ∧ ¬ a.val < b.val)) := by
  refine ⟨⟨rfl, by simp [datasource_t.all, datasource_t.val], ?_⟩, ?_, ⟨rfl, ?_⟩, ?_, ?_⟩
  · intro s; cases s <;> decide
  · intro a b; cases a <;> cases b <;> decide
  · intro s; cases s <;> decide
  · intro s; cases s <;> decide
  · intro a b; cases a <;> cases b <;> decide

/-- C2: in `addrtype_t` (smaller value = higher priority) the four ICAO address types rank
ADSB_ICAO > ADSB_ICAO_NT > ADSR_ICAO > TISB_ICAO, each of them outranks every non-ICAO
type, `ADDR_UNKNOWN` ranks strictly below every other type, and the encoding is injective,
so the priority order is total. -/
theorem addrtype_icao_priority :
    (addrtype_t.ADDR_ADSB_ICAO.higherPriority .ADDR_ADSB_ICAO_NT
      ∧ addrtype_t.ADDR_ADSB_ICAO_NT.higherPriority .ADDR_ADSR_ICAO
      ∧ addrtype_t.ADDR_ADSR_ICAO.higherPriority .ADDR_TISB_ICAO)
    ∧ (∀ a ∈ addrtype_t.icao, ∀ b ∈ addrtype_t.nonIcao, a.higherPriority b)
    ∧ (∀ a : addrtype_t, a ∈ addrtype_t.icao ∨ a ∈ addrtype_t.nonIcao)
    ∧ (∀ a : addrtype_t, a ≠ .ADDR_UNKNOWN → a.higherPriority .ADDR_UNKNOWN)
    ∧ (∀ a b : addrtype_t, a.val = b.val ↔ a = b)
    ∧ (∀ a b : addrtype_t, a = b ∨ a.higherPriority b ∨ b.higherPriority a) := by
  refine ⟨by decide, by decide, ?_, ?_, ?_, ?_⟩
  · intro a; cases a <;> decide
  · intro a; cases a <;> decide
  · intro a b; cases a <;> cases b <;> decide
  · intro a b; cases a <;> cases b <;> decide

/-- C3, as stated, fails: `ADDR_TISB_OTHER` is an other-address variant and
`ADDR_TISB_TRACKFILE` a Mode-A / track-file type, yet `ADDR_TISB_OTHER` does not have the
higher priority; `ADDR_TISB_TRACKFILE` does. -/
theorem addrtype_other_above_modeA_fails :
    addrtype_t.ADDR_TISB_OTHER ∈ addrtype_t.otherFormat
    ∧ addrtype_t.ADDR_TISB_TRACKFILE ∈ addrtype_t.modeA
    ∧ ¬ addrtype_t.ADDR_TISB_OTHER.higherPriority .ADDR_TISB_TRACKFILE
    ∧ ¬ (∀ a ∈ addrtype_t.otherFormat, ∀ b ∈ addrtype_t.modeA, a.higherPriority b) := by
  refine ⟨by decide, by decide, by decide, ?_⟩
  intro h
  exact absurd (h .ADDR_TISB_OTHER (by decide) .ADDR_TISB_TRACKFILE (by decide)) (by decide)

/-- C3, amended: `ADDR_ADSB_OTHER` and `ADDR_ADSR_OTHER` outrank both `ADDR_TISB_TRACKFILE`
and `ADDR_MODE_A`; `ADDR_TISB_OTHER` outranks `ADDR_MODE_A` but ranks strictly below
`ADDR_TISB_TRACKFILE`; and each of these five outranks `ADDR_UNKNOWN`. -/
theorem addrtype_other_modeA_priority :
    (∀ a ∈ [addrtype_t.ADDR_ADSB_OTHER, .ADDR_ADSR_OTHER],
        ∀ b ∈ addrtype_t.modeA, a.higherPriority b)
    ∧ addrtype_t.ADDR_TISB_OTHER.higherPriority .ADDR_MODE_A
    ∧ addrtype_t.ADDR_TISB_TRACKFILE.higherPriority .ADDR_TISB_OTHER
    ∧ (∀ a ∈ addrtype_t.otherFormat ++ addrtype_t.modeA,
        a.higherPriority .ADDR_UNKNOWN) := by
  decide

/-- C4: `MODES_SHORT_MSG_BITS = 56` and `MODES_LONG_MSG_BITS = 112`, each 8 times its byte
count (7 and 14); a long message is twice a short one; `msg` and `verbatim` both hold
exactly `MODES_LONG_MSG_BYTES = 14` bytes, so a message of 56 or 112 bits fits in either
and the two have equal capacity. -/
theorem message_length_constants :
    MODES_SHORT_MSG_BITS = 56 ∧ MODES_LONG_MSG_BITS = 112
    ∧ MODES_SHORT_MSG_BYTES = 7 ∧ MODES_LONG_MSG_BYTES = 14
    ∧ MODES_SHORT_MSG_BITS = 8 * MODES_SHORT_MSG_BYTES
    ∧ MODES_LONG_MSG_BITS = 8 * MODES_LONG_MSG_BYTES
    ∧ MODES_LONG_MSG_BITS = 2 * MODES_SHORT_MSG_BITS
    ∧ modesMessage_msg_len = MODES_LONG_MSG_BYTES ∧ modesMessage_msg_len = 14
    ∧ modesMessage_verbatim_len = MODES_LONG_MSG_BYTES ∧ modesMessage_verbatim_len = 14
    ∧ modesMessage_msg_len = modesMessage_verbatim_len
    ∧ (∀ bits : Nat, bits = MODES_SHORT_MSG_BITS ∨ bits = MODES_LONG_MSG_BITS →
        bytesForBits bits ≤ modesMessage_msg_len
        ∧ bytesForBits bits ≤ modesMessage_verbatim_len
        ∧ bits ≤ 8 * modesMessage_msg_len ∧ bits ≤ 8 * modesMessage_verbatim_len) := by
  refine ⟨rfl, rfl, rfl, rfl, rfl, rfl, rfl, rfl, rfl, rfl, rfl, rfl, ?_⟩
  rintro bits (h | h) <;> subst h <;> decide

/-- The fusion step is not inert: a message of strictly higher priority overwrites the
field with its own value, source and timestamp. -/
theorem fuseField_higher_overwrites {F V : Type} (cfg : FusionConfig F) (f : F)
    (stored : TrackField V) (src : datasource_t) (now : Nat) (x : V)
    (h : stored.source.val < src.val) :
    fuseField cfg f stored src now (some x) = { value := some x, source := src, updated := now } := by
  simp [fuseField, acceptsUpdate, h]

/-- The fusion step lets any source overwrite a field whose age exceeds its window. -/
theorem fuseField_stale_overwrites {F V : Type} (cfg : FusionConfig F) (f : F)
    (stored : TrackField V) (src : datasource_t) (now : Nat) (x : V)
    (h : cfg.window f stored.source < now - stored.updated) :
    fuseField cfg f stored src now (some x) = { value := some x, source := src, updated := now } := by
  simp [fuseField, acceptsUpdate, h]

/-- C5: track fusion is priority-monotone per field.  If field `f` of the track of the
message's address was last set by source `s1`, and a message carrying a value for `f` with
a source `s2` strictly below `s1` arrives while the stored value's age is within the
staleness window, then after the update the track still exists and the field's value,
source and update timestamp are unchanged. -/
theorem fusion_priority_monotone {F V : Type} (cfg : FusionConfig F) (tracks : Tracks F V)
    (mm : DecodedMessage F V) (t : Track F V) (f : F) (x : V) (s1 s2 : datasource_t)
    (htrack : tracks mm.addr = some t)
    (hstored : (t f).source = s1)
    (hsource : mm.source = s2)
    (hpresent : mm.field f = some x)
    (hlower : s2.val < s1.val)
    (hfresh : mm.timestamp - (t f).updated ≤ cfg.window f s1) :
    ∃ t' : Track F V, trackUpdateFromMessage cfg tracks mm mm.addr = some t'
      ∧ (t' f).value = (t f).value
      ∧ (t' f).source = s1
      ∧ (t' f).updated = (t f).updated
      ∧ t' f = t f := by
  have hno : acceptsUpdate cfg f (t f) mm.source mm.timestamp = false := by
    unfold acceptsUpdate
    rw [hstored, hsource]
    have h1 : ¬ s1.val < s2.val := by omega
    have h2 : ¬ s1.val = s2.val := by omega
    have h3 : ¬ cfg.window f s1 < mm.timestamp - (t f).updated := by omega
    simp [h1, h2, h3]
  have hkeep : fuseField cfg f (t f) mm.source mm.timestamp (mm.field f) = t f := by
    rw [hpresent]
    simp [fuseField, hno]
  refine ⟨fun g => fuseField cfg g (t g) mm.source mm.timestamp (mm.field g), ?_, ?_, ?_, ?_, ?_⟩
  · simp [trackUpdateFromMessage, htrack]
  · simp only [hkeep]
  · simp only [hkeep, hstored]
  · simp only [hkeep]
  · exact hkeep

/-- C5 at a concrete track: a squawk set by ADS-B at time 100 survives a Mode A/C message
for the same address at time 130 under a 60-unit window. -/
theorem fusion_priority_monotone_witness :
    ∃ t' : Track Unit Nat,
      trackUpdateFromMessage { window := fun _ _ => 60, tiesOverwrite := true }
          (fun a => if a = 0x4840D6 then
            some (fun _ => { value := some 0x7000, source := .SOURCE_ADSB, updated := 100 })
            else none)
          { addr := 0x4840D6, source := .SOURCE_MODE_AC, timestamp := 130,
            field := fun _ => some 0x1200 } 0x4840D6 = some t'
      ∧ (t' ()).value = some 0x7000
      ∧ (t' ()).source = .SOURCE_ADSB
      ∧ (t' ()).updated = 100
      ∧ t' () = { value := some 0x7000, source := .SOURCE_ADSB, updated := 100 } :=
  fusion_priority_monotone { window := fun _ _ => 60, tiesOverwrite := true }
    (fun a => if a = 0x4840D6 then
      some (fun _ => { value := some 0x7000, source := .SOURCE_ADSB, updated := 100 })
      else none)
    { addr := 0x4840D6, source := .SOURCE_MODE_AC, timestamp := 130,
      field := fun _ => some 0x1200 }
    (fun _ => { value := some 0x7000, source := .SOURCE_ADSB, updated := 100 })
    () 0x1200 .SOURCE_ADSB .SOURCE_MODE_AC
    (by simp) rfl rfl rfl (by decide) (by decide)

/-! ### CRC engine: linearity and the correction routine -/

theorem mulXpow_succ (c s : Nat) : mulXpow (c + 1) s = mulX (mulXpow c s) := by
  induction c generalizing s with
  | zero => rfl
  | succ c ih => rw [mulXpow, ih (mulX s)]; rfl

/-- Running the register over `k` zero bits multiplies the state by `x^k`. -/
theorem crcFrom_replicate_false (k s : Nat) :
    crcFrom s (List.replicate k false) = mulXpow k s := by
  induction k generalizing s with
  | zero => rfl
  | succ k ih =>
    rw [List.replicate_succ]
    show crcFrom (crcStep s false) (List.replicate k false) = mulXpow (k + 1) s
    rw [ih]; rfl

/-- The two sides of a certificate can be swapped. -/
theorem NoUnitSum.symm {n a b : Nat} (hc : NoUnitSum n a b) : NoUnitSum n b a :=
  fun A B hA hB hAb hBb hAl hBl h =>
    hc B A hB hA hBb hAb hBl hAl (by rw [Nat.xor_comm]; exact h)

theorem pack_nil : pack [] = 0 := rfl

/-- In a lane that held `q`, bit 24 stays clear. -/
theorem lane_guard (c : Nat) (hc : c < 2 ^ 24) (h : (c + (2 ^ 24 - 1)) &&& 2 ^ 24 = 2 ^ 24) :
    c ≠ 0 := by
  rintro rfl
  revert h
  decide

/-- C7: `commb_format_t` is injectively encoded; the three non-register outcomes
`COMMB_NOT_DECODED`, `COMMB_AMBIGUOUS`, `COMMB_EMPTY_RESPONSE` are pairwise distinct and
differ from every register-format tag; each recognised register has its own tag; and the
tag stored for an outcome determines the outcome. -/
theorem commb_format_tags_distinct :
    (∀ a b : commb_format_t, a.val = b.val ↔ a = b)
    ∧ [commb_format_t.COMMB_NOT_DECODED, .COMMB_AMBIGUOUS, .COMMB_EMPTY_RESPONSE].Nodup
    ∧ (∀ t ∈ [commb_format_t.COMMB_NOT_DECODED, .COMMB_AMBIGUOUS, .COMMB_EMPTY_RESPONSE],
        t ∉ commb_format_t.registerTags)
    ∧ (∀ r : CommBRegister, r.tag ∈ commb_format_t.registerTags)
    ∧ Function.Injective CommBRegister.tag
    ∧ Function.Injective CommBOutcome.tag
    ∧ (∀ o₁ o₂ : CommBOutcome, o₁.tag.val = o₂.tag.val ↔ o₁ = o₂) := by
  have hval : ∀ a b : commb_format_t, a.val = b.val ↔ a = b := by
    intro a b; cases a <;> cases b <;> decide
  have hreg : Function.Injective CommBRegister.tag := by
    intro a b; cases a <;> cases b <;> decide
  have hout : Function.Injective CommBOutcome.tag := by
    intro a b h
    cases a <;> cases b <;> first
      | rfl
      | exact congrArg CommBOutcome.decoded (hreg h)
      | (rename_i r; cases r <;> cases h)
      | cases h
  refine ⟨hval, by decide, by decide, ?_, hreg, hout, ?_⟩
  · intro r; cases r <;> decide
  · intro o₁ o₂
    exact ⟨fun h => hout ((hval _ _).1 h), fun h => by rw [h]⟩

/-- Flagging adds the flag bit: for a 24-bit address, `a | (1<<24)` is `a + 2^24`. -/
theorem flagNonIcao_eq_add (a : Nat) (h : a < 2 ^ 24) : flagNonIcao a = a + 2 ^ 24 := by
  unfold flagNonIcao MODES_NON_ICAO_ADDRESS
  have e := Nat.mul_add_lt_is_or h 1
  rw [Nat.mul_one] at e
  rw [Nat.one_shiftLeft, Nat.lor_comm, Nat.add_comm]
  exact e.symm

/-- C8: for every 24-bit address `a`, the flagged address `a | MODES_NON_ICAO_ADDRESS` is
not a 24-bit value (so it equals no ICAO address), its low 24 bits are `a`, it equals
`a + 2^24`, it fits in the 32-bit `addr` field, and flagging is injective. -/
theorem non_icao_flag_outside_address_space (a : Nat) (h : a < 2 ^ 24) :
    MODES_NON_ICAO_ADDRESS = 2 ^ 24
    ∧ ¬ flagNonIcao a < 2 ^ 24
    ∧ (∀ i : Nat, i < 2 ^ 24 → flagNonIcao a ≠ i)
    ∧ flagNonIcao a % 2 ^ 24 = a
    ∧ flagNonIcao a &&& (2 ^ 24 - 1) = a
    ∧ flagNonIcao a = a + 2 ^ 24
    ∧ flagNonIcao a < 2 ^ modesMessage_addr_bits
    ∧ (∀ b : Nat, b < 2 ^ 24 → flagNonIcao a = flagNonIcao b → a = b) := by
  have e := flagNonIcao_eq_add a h
  refine ⟨by decide, ?_, ?_, ?_, ?_, e, ?_, ?_⟩
  · omega
  · intro i hi; omega
  · omega
  · rw [Nat.and_pow_two_sub_one_eq_mod]; omega
  · unfold modesMessage_addr_bits; omega
  · intro b hb hab
    rw [e, flagNonIcao_eq_add b hb] at hab
    omega

/-- C8 at the address `0xABCDEF`. -/
theorem non_icao_flag_outside_address_space_witness :
    0xABCDEF < 2 ^ 24 ∧ flagNonIcao 0xABCDEF = 0x1ABCDEF
    ∧ flagNonIcao 0xABCDEF % 2 ^ 24 = 0xABCDEF :=
  ⟨by decide, by decide,
    (non_icao_flag_outside_address_space 0xABCDEF (by decide)).2.2.2.1⟩

/-- C9: the eight members of `emergency_t` take exactly the values 0..7 in the order
NONE, GENERAL, LIFEGUARD, MINFUEL, NORDO, UNLAWFUL, DOWNED, RESERVED; every 3-bit subfield
value is the value of exactly one member, so subfield values and members are in
bijection. -/
theorem emergency_matches_subfield :
    emergency_t.all.map emergency_t.val = [0, 1, 2, 3, 4, 5, 6, 7]
    ∧ (∀ e : emergency_t, e ∈ emergency_t.all)
    ∧ (∀ e : emergency_t, e.val < 2 ^ 3)
    ∧ (∀ a b : emergency_t, a.val = b.val ↔ a = b)
    ∧ (∀ n : Nat, n < 2 ^ 3 → ∃ e : emergency_t, emergency_t.ofSubfield n = some e
        ∧ e.val = n ∧ ∀ e' : emergency_t, e'.val = n → e' = e)
    ∧ (∀ e : emergency_t, emergency_t.ofSubfield e.val = some e) := by
  have hinj : ∀ a b : emergency_t, a.val = b.val ↔ a = b := by
    intro a b; cases a <;> cases b <;> decide
  have hround : ∀ e : emergency_t, emergency_t.ofSubfield e.val = some e := by
    intro e; cases e <;> rfl
  refine ⟨rfl, ?_, ?_, hinj, ?_, hround⟩
  · intro e; cases e <;> decide
  · intro e; cases e <;> decide
  · intro n hn
    have hn8 : n < 8 := hn
    interval_cases n
    · exact ⟨.EMERGENCY_NONE, rfl, rfl, fun e' h => (hinj _ _).1 h⟩
    · exact ⟨.EMERGENCY_GENERAL, rfl, rfl, fun e' h => (hinj _ _).1 h⟩
    · exact ⟨.EMERGENCY_LIFEGUARD, rfl, rfl, fun e' h => (hinj _ _).1 h⟩
    · exact ⟨.EMERGENCY_MINFUEL, rfl, rfl, fun e' h => (hinj _ _).1 h⟩
    · exact ⟨.EMERGENCY_NORDO, rfl, rfl, fun e' h => (hinj _ _).1 h⟩
    · exact ⟨.EMERGENCY_UNLAWFUL, rfl, rfl, fun e' h => (hinj _ _).1 h⟩
    · exact ⟨.EMERGENCY_DOWNED, rfl, rfl, fun e' h => (hinj _ _).1 h⟩
    · exact ⟨.EMERGENCY_RESERVED, rfl, rfl, fun e' h => (hinj _ _).1 h⟩

/-- C11: `MODES_MAG_BUFFERS` (12) is strictly smaller than `MODES_RTL_BUFFERS` (15);
`MODES_RTL_BUF_SIZE` is `16*16384 = 262144` bytes, i.e. 256 KiB; and
`MODES_MAG_BUF_SAMPLES` is `MODES_RTL_BUF_SIZE / 2 = 131072` with no remainder, one
magnitude sample per 2 bytes of RTL buffer. -/
theorem buffer_constants :
    MODES_MAG_BUFFERS = 12 ∧ MODES_RTL_BUFFERS = 15
    ∧ MODES_MAG_BUFFERS < MODES_RTL_BUFFERS
    ∧ MODES_RTL_BUF_SIZE = 16 * 16384
    ∧ MODES_RTL_BUF_SIZE = 262144
    ∧ MODES_RTL_BUF_SIZE = 256 * 1024
    ∧ MODES_MAG_BUF_SAMPLES = MODES_RTL_BUF_SIZE / 2
    ∧ MODES_MAG_BUF_SAMPLES = 131072
    ∧ MODES_RTL_BUF_SIZE % 2 = 0
    ∧ 2 * MODES_MAG_BUF_SAMPLES = MODES_RTL_BUF_SIZE := by
  refine ⟨rfl, rfl, ?_, rfl, ?_, ?_, rfl, ?_, ?_, ?_⟩ <;> decide

/-- C12: a zero-initialised `struct modesMessage` carries no data.  Each of its 42 presence
flags is 0, and every enum-typed member whose type has a not-set enumerator reads back as
that enumerator, because the enumerator has value 0: `source` is `SOURCE_INVALID`,
`commb_format` is `COMMB_UNKNOWN`, `airground` is `AG_INVALID`, `heading_type` is
`HEADING_INVALID` (and so are `nav.heading_type`, `opstatus.tah` and `opstatus.hrd`),
`accuracy.sil_type` is `SIL_INVALID`, `nav.altitude_source` is `NAV_ALT_INVALID` and
`mrar_source` is `MRAR_SOURCE_INVALID`. -/
theorem zeroed_message_carries_no_data :
    (∀ f ∈ modesMessage.zero.presenceFlags, f = 0)
    ∧ modesMessage.zero.presenceFlags.length = 42
    ∧ (datasource_t.ofVal modesMessage.zero.source = some .SOURCE_INVALID
      ∧ commb_format_t.ofVal modesMessage.zero.commb_format = some .COMMB_UNKNOWN
      ∧ airground_t.ofVal modesMessage.zero.airground = some .AG_INVALID
      ∧ heading_type_t.ofVal modesMessage.zero.heading_type = some .HEADING_INVALID
      ∧ sil_type_t.ofVal modesMessage.zero.accuracy.sil_type = some .SIL_INVALID
      ∧ nav_altitude_source_t.ofVal modesMessage.zero.nav.altitude_source
          = some .NAV_ALT_INVALID
      ∧ mrar_source_t.ofVal modesMessage.zero.mrar_source = some .MRAR_SOURCE_INVALID)
    ∧ (heading_type_t.ofVal modesMessage.zero.nav.heading_type = some .HEADING_INVALID
      ∧ heading_type_t.ofVal modesMessage.zero.opstatus.tah = some .HEADING_INVALID
      ∧ heading_type_t.ofVal modesMessage.zero.opstatus.hrd = some .HEADING_INVALID)
    ∧ (datasource_t.SOURCE_INVALID.val = 0 ∧ commb_format_t.COMMB_UNKNOWN.val = 0
      ∧ airground_t.AG_INVALID.val = 0 ∧ heading_type_t.HEADING_INVALID.val = 0
      ∧ sil_type_t.SIL_INVALID.val = 0 ∧ nav_altitude_source_t.NAV_ALT_INVALID.val = 0
      ∧ mrar_source_t.MRAR_SOURCE_INVALID.val = 0) := by
  refine ⟨by decide, rfl, by decide, by decide, by decide⟩

/-- Each flag is the power of two of its bit. -/
theorem nav_modes_val_eq_two_pow (m : nav_modes_t) : m.val = 2 ^ m.bit := by
  cases m <;> rfl

/-- The bit positions of the flags are below 6. -/
theorem nav_modes_bit_lt (m : nav_modes_t) : m.bit < 6 := by
  cases m <;> decide

/-- Different modes occupy different bits. -/
theorem nav_modes_bit_inj (a b : nav_modes_t) : a.bit = b.bit ↔ a = b := by
  cases a <;> cases b <;> decide

/-- Testing a flag with AND reads the bit of that flag. -/
theorem nav_modes_isSet_eq_testBit (v : Nat) (m : nav_modes_t) :
    nav_modes_t.isSet v m = v.testBit m.bit := by
  unfold nav_modes_t.isSet
  rw [nav_modes_val_eq_two_pow]
  cases h : v.testBit m.bit
  · have : v &&& 2 ^ m.bit = 0 := by
      apply Nat.eq_of_testBit_eq
      intro i
      rw [Nat.testBit_and, Nat.testBit_two_pow, Nat.zero_testBit]
      by_cases hi : m.bit = i
      · subst hi; simp [h]
      · simp [hi]
    simp [this]
  · have : (v &&& 2 ^ m.bit).testBit m.bit = true := by
      rw [Nat.testBit_and, Nat.testBit_two_pow, h]; simp
    have hne : v &&& 2 ^ m.bit ≠ 0 := by
      intro h0
      rw [h0, Nat.zero_testBit] at this
      cases this
    simp [hne]

/-- Bit `i` of an encoded set is set exactly when some member of the set owns bit `i`. -/
theorem nav_modes_testBit_encode (s : List nav_modes_t) (i : Nat) :
    (nav_modes_t.encode s).testBit i = true ↔ ∃ m ∈ s, m.bit = i := by
  induction s with
  | nil => simp [nav_modes_t.encode]
  | cons a as ih =>
    simp only [nav_modes_t.encode, Nat.testBit_or, Bool.or_eq_true, ih, List.mem_cons,
      nav_modes_val_eq_two_pow, Nat.testBit_two_pow, decide_eq_true_eq]
    constructor
    · rintro (h | ⟨m, hm, hb⟩)
      · exact ⟨a, Or.inl rfl, h⟩
      · exact ⟨m, Or.inr hm, hb⟩
    · rintro ⟨m, (rfl | hm), hb⟩
      · exact Or.inl hb
      · exact Or.inr ⟨m, hm, hb⟩

/-- An encoded set fits in six bits. -/
theorem nav_modes_encode_lt (s : List nav_modes_t) : nav_modes_t.encode s < 2 ^ 6 := by
  induction s with
  | nil => decide
  | cons a as ih =>
    exact Nat.or_lt_two_pow (by cases a <;> decide) ih

/-- Membership is recovered from the encoded value by AND with the flag. -/
theorem nav_modes_isSet_encode (s : List nav_modes_t) (m : nav_modes_t) :
    nav_modes_t.isSet (nav_modes_t.encode s) m = true ↔ m ∈ s := by
  rw [nav_modes_isSet_eq_testBit, nav_modes_testBit_encode]
  constructor
  · rintro ⟨m', hm', hb⟩
    rwa [← (nav_modes_bit_inj m' m).1 hb]
  · intro h
    exact ⟨m, h, rfl⟩

/-- Two sets have the same encoding exactly when they have the same members. -/
theorem nav_modes_encode_eq_iff (s t : List nav_modes_t) :
    nav_modes_t.encode s = nav_modes_t.encode t ↔ ∀ m : nav_modes_t, m ∈ s ↔ m ∈ t := by
  constructor
  · intro h m
    rw [← nav_modes_isSet_encode s m, ← nav_modes_isSet_encode t m, h]
  · intro h
    apply Nat.eq_of_testBit_eq
    intro i
    have hs := nav_modes_testBit_encode s i
    have ht := nav_modes_testBit_encode t i
    have : ((nav_modes_t.encode s).testBit i = true)
        ↔ ((nav_modes_t.encode t).testBit i = true) := by
      rw [hs, ht]
      constructor
      · rintro ⟨m, hm, hb⟩; exact ⟨m, (h m).1 hm, hb⟩
      · rintro ⟨m, hm, hb⟩; exact ⟨m, (h m).2 hm, hb⟩
    cases h1 : (nav_modes_t.encode s).testBit i <;>
      cases h2 : (nav_modes_t.encode t).testBit i <;> simp_all

/-- Every value below 64 is the encoding of the set of modes it has set. -/
theorem nav_modes_encode_decode (v : Nat) (h : v < 2 ^ 6) :
    nav_modes_t.encode (nav_modes_t.decode v) = v := by
  have h64 : v < 64 := h
  interval_cases v <;> decide

/-- C13: `nav_modes_t` is a set of independent bit flags.  The six members have the values
1, 2, 4, 8, 16, 32, each the power of two of its own bit; the AND of two different members
is 0; the OR of all six is 63; every set of modes is encoded by a value in 0..63 from which
membership of each mode is recovered by AND with its flag; two sets have the same encoding
exactly when they have the same members; and every value in 0..63 encodes a set. -/
theorem nav_modes_independent_flags :
    nav_modes_t.all.map nav_modes_t.val = [1, 2, 4, 8, 16, 32]
    ∧ (∀ m : nav_modes_t, m ∈ nav_modes_t.all)
    ∧ (∀ m : nav_modes_t, m.val = 2 ^ m.bit ∧ m.bit < 6)
    ∧ (∀ a b : nav_modes_t, a.val = b.val ↔ a = b)
    ∧ (∀ a b : nav_modes_t, a ≠ b → a.val &&& b.val = 0)
    ∧ nav_modes_t.encode nav_modes_t.all = 63
    ∧ (∀ s : List nav_modes_t, nav_modes_t.encode s < 64)
    ∧ (∀ (s : List nav_modes_t) (m : nav_modes_t),
        nav_modes_t.isSet (nav_modes_t.encode s) m = true ↔ m ∈ s)
    ∧ (∀ s t : List nav_modes_t,
        nav_modes_t.encode s = nav_modes_t.encode t ↔ ∀ m : nav_modes_t, m ∈ s ↔ m ∈ t)
    ∧ (∀ v : Nat, v < 64 → nav_modes_t.encode (nav_modes_t.decode v) = v) := by
  refine ⟨rfl, ?_, fun m => ⟨nav_modes_val_eq_two_pow m, nav_modes_bit_lt m⟩, ?_, ?_, by decide,
    nav_modes_encode_lt, nav_modes_isSet_encode, nav_modes_encode_eq_iff,
    fun v hv => nav_modes_encode_decode v hv⟩
  · intro m; cases m <;> decide
  · intro a b; cases a <;> cases b <;> decide
  · intro a b; cases a <;> cases b <;> decide

end Dump1090
